import Mathlib

/-!
# Verification of the caffeine-calculator core

Shallow embedding of the pharmacokinetic core of
`src/pages/caffeine-calculator.js`.  Times of day are modelled as rational
hours since midnight of the reference day; JavaScript `Date` arithmetic on
times anchored to the same day reduces to arithmetic on these hour values.
Concentrations are real numbers (the idealisation of JS floats), since the
code uses `Math.pow(0.5, ·)` with real exponents.  Optional / empty form
fields are modelled with `Option` (a `none` age or weight makes every
`NaN` comparison false in JS, i.e. contributes no adjustment, which the
`Option` match reproduces exactly).
-/

/-- `bed.getHours() < 12` makes the bedtime roll over to the next day
(`bed.setDate(bed.getDate() + 1)`), i.e. adds 24 hours. -/
def resolveBed (bedtime : ℚ) : ℚ :=
  if bedtime < 12 then bedtime + 24 else bedtime

/-- `endDateTime = new Date(... endTime || startTime)`, and
`if (endDateTime < startDateTime) endDateTime.setDate(+1)`: a missing end
time means the start time, and an end before the start crosses midnight. -/
def resolveEnd (startT : ℚ) (endT : Option ℚ) : ℚ :=
  let e := endT.getD startT
  if e < startT then e + 24 else e

/-- `minutesToAbsorb = Math.max(1, (endDateTime - startDateTime) / 60000)`. -/
def minutesToAbsorb (s e : ℚ) : ℚ :=
  max 1 ((e - s) * 60)

/-- `isInstant = minutesToAbsorb <= 1` (in `calculateCaffeineRemaining`). -/
def isInstant (s e : ℚ) : Bool :=
  minutesToAbsorb s e ≤ 1

/-- Hours from the intake's start to the (day-resolved) bedtime:
`(bed - startDateTime) / (1000 * 60 * 60)`. -/
def elapsed (bedtime startT : ℚ) : ℚ :=
  resolveBed bedtime - startT

/-- `durationHours = Math.max((end - start) / 3.6e6, 0)` in
`calculateCaffeineCurve`. -/
def curveDuration (s e : ℚ) : ℚ :=
  max (e - s) 0

/-- `isInstant = durationHours < 0.016` (in `calculateCaffeineCurve`). -/
def curveIsInstant (durationH : ℚ) : Bool :=
  durationH < 2/125

/-- One step of the gradual-absorption loop body:
`caffeine *= Math.pow(0.5, step / halfLifeHours); if (consuming) caffeine
+= intakeRate * step;` with `step = 10/60` h, `consuming = t < durationHours`,
`intakeRate = caffeineMg / durationHours`, evaluated at `t = i * step`. -/
noncomputable def gradualStep (dose halfLife : ℝ) (durationH : ℚ) (c : ℝ) (i : ℕ) : ℝ :=
  c * (1/2 : ℝ) ^ (((1 : ℝ)/6) / halfLife) +
    if ((i : ℚ)/6) < durationH then (dose / (durationH : ℝ)) * ((1 : ℝ)/6) else 0

/-- Running caffeine level of the gradual branch after processing the
sample at `t = i/6` hours (the loop starts from `caffeine = 0`). -/
noncomputable def curveLevel (dose halfLife : ℝ) (durationH : ℚ) : ℕ → ℝ
  | 0 => gradualStep dose halfLife durationH 0 0
  | i + 1 => gradualStep dose halfLife durationH (curveLevel dose halfLife durationH i) (i + 1)

/-- Caffeine value pushed for sample `i` (before the `Math.max(0, ·)`):
instant intakes use the closed form (`t <= 0.01` keeps the full dose, which
with a 10-minute step only happens at `t = 0`), gradual intakes use the
stepped loop value. -/
noncomputable def curveSampleValue (dose halfLife : ℝ) (durationH : ℚ) (i : ℕ) : ℝ :=
  if curveIsInstant durationH then
    if ((i : ℚ)/6) ≤ 1/100 then dose
    else dose * (1/2 : ℝ) ^ (((i : ℝ)/6) / halfLife)
  else curveLevel dose halfLife durationH i

/-- `calculateCaffeineCurve`: samples every 10 minutes (`step = 1/6` h) for
`t = 0, step, ..., totalHours`, pushing `(t, Math.max(0, caffeine))`. -/
noncomputable def calculateCaffeineCurve (dose halfLife : ℝ) (durationH : ℚ)
    (totalHours : ℕ) : List (ℚ × ℝ) :=
  (List.range (6 * totalHours + 1)).map
    (fun (i : ℕ) => (((i : ℚ)/6), max 0 (curveSampleValue dose halfLife durationH i)))

/-- The query loop of the gradual branch of `calculateCaffeineRemaining`:
walk the curve, remembering the caffeine of every point whose time is at or
before the target, and stop (`break`) at the first later point. -/
def holdAt (curve : List (ℚ × ℝ)) (target : ℚ) (acc : ℝ) : ℝ :=
  match curve with
  | [] => acc
  | p :: rest => if p.1 ≤ target then holdAt rest target p.2 else acc

/-- `calculateCaffeineRemaining(dose, bedtime, halfLife, startTime, endTime)`
with a present `startTime` (the `startTime = null` guard lives in the
aggregator's `Option` match). -/
noncomputable def calculateCaffeineRemaining (dose halfLife : ℝ) (bedtime startT : ℚ)
    (endT : Option ℚ) : ℝ :=
  let e := resolveEnd startT endT
  if isInstant startT e then
    if elapsed bedtime startT < 0 then 0
    else max 0 (dose * (1/2 : ℝ) ^ (((elapsed bedtime startT : ℚ) : ℝ) / halfLife))
  else
    if elapsed bedtime startT < 0 then 0
    else max 0 (holdAt (calculateCaffeineCurve dose halfLife (curveDuration startT e) 48)
      (elapsed bedtime startT) 0)

/-- An intake row as the core sees it: `dose` and the time strings are
empty-able form fields, so each is an `Option`. -/
structure Drink where
  name : String
  dose : Option ℚ
  startT : Option ℚ
  endT : Option ℚ

/-- The body of `calculateTotalCaffeineAtBedtime`'s reduce: skip a row
missing its dose or its start time (`!drink.dose || !drink.startTimeString`),
otherwise add `Math.max(0, calculateCaffeineRemaining(...))`. -/
noncomputable def totalStep (bedtime : ℚ) (halfLife : ℝ) (total : ℝ) (d : Drink) : ℝ :=
  match d.dose, d.startT with
  | some dose, some s =>
      total + max 0 (calculateCaffeineRemaining (dose : ℝ) halfLife bedtime s d.endT)
  | _, _ => total

/-- `calculateTotalCaffeineAtBedtime`: a reduce over the drinks starting
from 0. -/
noncomputable def calculateTotalCaffeineAtBedtime (drinks : List Drink) (bedtime : ℚ)
    (halfLife : ℝ) : ℝ :=
  drinks.foldl (totalStep bedtime halfLife) 0

/-- The result of `calculateLatestSafeIntakeTime`: one of the two sentinel
strings, or a formatted clock time `"<displayHours>:<minutes> <AM|PM>"`. -/
inductive SafeTimeResult where
  | anyTimeToday
  | tooLateForToday
  | timeOfDay (displayHours minutes : ℤ) (pm : Bool)
  deriving DecidableEq

/-- The cutoff instant `bed - hoursBeforeBed` with
`hoursBeforeBed = halfLife * Math.log2(dose / threshold)`, as hours from
midnight of the reference day. -/
noncomputable def safeCutoff (bedtime : ℚ) (halfLife dose threshold : ℝ) : ℝ :=
  ((resolveBed bedtime : ℚ) : ℝ) - halfLife * Real.logb 2 (dose / threshold)

/-- Formatting of a cutoff instant: `getHours() % 12 || 12`,
`getMinutes()` and the AM/PM flag of the corresponding `Date`. -/
noncomputable def formatTimeOfDay (cutoff : ℝ) : SafeTimeResult :=
  let totalMin : ℤ := ⌊cutoff * 60⌋
  let hours : ℤ := totalMin / 60 % 24
  let minutes : ℤ := totalMin % 60
  .timeOfDay (if hours % 12 = 0 then 12 else hours % 12) minutes (12 ≤ hours)

/-- `calculateLatestSafeIntakeTime(bedtime, halfLife, dose, threshold)`.
The ambient `new Date()` is made explicit as the `now` argument (hours
from midnight of the reference day). -/
noncomputable def calculateLatestSafeIntakeTime (now bedtime : ℚ) (halfLife dose threshold : ℝ) :
    SafeTimeResult :=
  if dose ≤ threshold then .anyTimeToday
  else
    let cutoff := safeCutoff bedtime halfLife dose threshold
    if cutoff < ((now : ℚ) : ℝ) then .tooLateForToday
    else
      let bed : ℝ := ((resolveBed bedtime : ℚ) : ℝ)
      formatTimeOfDay (if bed < cutoff then bed - 1/4 else cutoff)

/-- A per-drink cutoff row's advisory field: either the sentinel string
`"Already over limit"` or the solver's result. -/
inductive CutoffOutcome where
  | alreadyOverLimit
  | safeTime (r : SafeTimeResult)
  deriving DecidableEq

/-- One row of `calculateIndividualCutoffTimes`' output. -/
structure CutoffEntry where
  name : String
  dose : Option ℚ
  outcome : CutoffOutcome

/-- `validDrinks = drinks.filter(drink => drink.dose && drink.startTimeString)`. -/
def validDrinksOf (drinks : List Drink) : List Drink :=
  drinks.filter (fun d => d.dose.isSome && d.startT.isSome)

/-- The per-index body of `calculateIndividualCutoffTimes`' forEach. -/
noncomputable def cutoffEntryFor (validDrinks : List Drink) (now bedtime : ℚ) (halfLife : ℝ)
    (i : ℕ) : CutoffEntry :=
  let d := validDrinks.getD i ⟨"", none, none, none⟩
  let otherDrinksCaffeine :=
    calculateTotalCaffeineAtBedtime (validDrinks.eraseIdx i) bedtime halfLife
  let maxAllowed : ℝ := max 0 ((30 : ℝ) - otherDrinksCaffeine)
  if 0 < maxAllowed then
    ⟨d.name, d.dose,
      .safeTime (calculateLatestSafeIntakeTime now bedtime halfLife ((d.dose.getD 0 : ℚ) : ℝ)
        maxAllowed)⟩
  else ⟨d.name, d.dose, .alreadyOverLimit⟩

/-- `calculateIndividualCutoffTimes(drinks, bedtime, halfLife)`: filter to
the drinks with a dose and a start time, then for each index compute the
budget left by all OTHER drinks (`safeSleepThreshold = 30` minus their
total, floored at 0) and either solve for a cutoff or report
`"Already over limit"`. -/
noncomputable def calculateIndividualCutoffTimes (drinks : List Drink) (now bedtime : ℚ)
    (halfLife : ℝ) : List CutoffEntry :=
  (List.range (validDrinksOf drinks).length).map
    (cutoffEntryFor (validDrinksOf drinks) now bedtime halfLife)

/-- Personal-info form state: `age` and `weight` parse to `none` when the
field is empty or non-numeric (JS `NaN`, whose comparisons are all false);
`sex` is the raw string. -/
structure PersonalInfo where
  age : Option ℤ
  weight : Option ℚ
  sex : String

/-- `convertToMetric(value, 'weight', unit)`: pounds are multiplied by
0.453592; metric input is passed through. -/
def convertToMetric (w : Option ℚ) (unit : String) : Option ℚ :=
  if unit = "metric" then w else w.map (· * (453592/1000000 : ℚ))

/-- The sum `baseHalfLife + age adjustment + weight adjustment + sex
adjustment` computed by `calculateAdjustedHalfLife` before its final
`Math.max(1, ·)` floor.  A `none` age or weight takes no branch, exactly as
`NaN` fails every comparison in the JS code. -/
def adjustedHalfLifeRaw (p : PersonalInfo) (weightUnit : String) : ℚ :=
  let ageAdj : ℚ :=
    match p.age with
    | some a => if a > 50 then 1 else if a ≥ 30 ∧ a ≤ 50 then 1/2 else 0
    | none => 0
  let weightAdj : ℚ :=
    match convertToMetric p.weight weightUnit with
    | some w => if w < 60 then 1/2 else if w > 90 then -(1/2) else 0
    | none => 0
  let sexAdj : ℚ := if p.sex = "female" then 1/2 else 0
  5 + ageAdj + weightAdj + sexAdj

/-- `calculateAdjustedHalfLife(personalInfo, units)` with the
`Math.max(1, adjustedHalfLife)` floor. -/
def calculateAdjustedHalfLife (p : PersonalInfo) (weightUnit : String) : ℚ :=
  max 1 (adjustedHalfLifeRaw p weightUnit)

/-- The classification carried by `getWarningMessage`'s result object
(`null`, `type: 'caution'`, or `type: 'danger'`). -/
inductive Warning where
  | caution
  | danger
  deriving DecidableEq

/-- `getWarningMessage(dailyIntake)`, keeping the exact branch structure of
the source (including the unreachable trailing `return null`). -/
def getWarningMessage (dailyIntake : ℚ) : Option Warning :=
  if dailyIntake < 600 then none
  else if dailyIntake ≥ 600 ∧ dailyIntake < 1000 then some .caution
  else if dailyIntake ≥ 1000 then some .danger
  else none

/-- Spec-side restatement of the half-life claim: a base of 5.0 hours plus
additive, independent adjustments (age, weight after unit conversion, sex),
floored at `max 1 ·`. -/
def specHalfLifeAdjusted (age : ℤ) (weight : ℚ) (sex unit : String) : ℚ :=
  let wkg : ℚ := if unit = "metric" then weight else weight * (453592/1000000 : ℚ)
  max 1 (5 + (if age > 50 then 1 else 0) + (if 30 ≤ age ∧ age ≤ 50 then 1/2 else 0)
    + (if wkg < 60 then 1/2 else 0) + (if wkg > 90 then -(1/2) else 0)
    + (if sex = "female" then 1/2 else 0))

/-- C9: `getWarningMessage` classifies totals below 600 mg as no warning,
totals in [600, 1000) as caution, and totals of at least 1000 mg as
danger. -/
theorem getWarningMessage_classifies (d : ℚ) :
    (d < 600 → getWarningMessage d = none)
    ∧ (600 ≤ d → d < 1000 → getWarningMessage d = some .caution)
    ∧ (1000 ≤ d → getWarningMessage d = some .danger) := by
  refine ⟨fun h => ?_, fun h₁ h₂ => ?_, fun h => ?_⟩
  · unfold getWarningMessage
    rw [if_pos h]
  · unfold getWarningMessage
    rw [if_neg (by linarith), if_pos ⟨h₁, h₂⟩]
  · unfold getWarningMessage
    rw [if_neg (by linarith), if_neg (fun hc => by linarith [hc.2]), if_pos h]

/-- Witness for C9 at the spec's example inputs 500, 700 and 1200 mg. -/
theorem getWarningMessage_classifies_witness :
    getWarningMessage 500 = none ∧ getWarningMessage 700 = some .caution
      ∧ getWarningMessage 1200 = some .danger :=
  ⟨(getWarningMessage_classifies 500).1 (by norm_num),
   (getWarningMessage_classifies 700).2.1 (by norm_num) (by norm_num),
   (getWarningMessage_classifies 1200).2.2 (by norm_num)⟩

/-- C2: `calculateAdjustedHalfLife` is the base 5.0 hours plus the additive,
independent age / weight / sex adjustments of the claim (imperial weight
converted by 0.453592 before thresholding), floored at `max 1 ·`; at age 35,
weight 70 kg metric, sex female it is exactly 6.0 hours. -/
theorem calculateAdjustedHalfLife_spec (a : ℤ) (w : ℚ) (sex unit : String) :
    calculateAdjustedHalfLife ⟨some a, some w, sex⟩ unit = specHalfLifeAdjusted a w sex unit
    ∧ calculateAdjustedHalfLife ⟨some 35, some 70, "female"⟩ "metric" = 6 := by
  constructor
  · unfold calculateAdjustedHalfLife adjustedHalfLifeRaw specHalfLifeAdjusted convertToMetric
    by_cases hu : unit = "metric" <;>
      simp only [hu, if_true, if_false, Option.map_some'] <;>
      split_ifs <;>
      first
        | (exfalso; omega)
        | (exfalso; linarith)
        | norm_num
  · norm_num [calculateAdjustedHalfLife, adjustedHalfLifeRaw, convertToMetric]

/-- C10: for every profile — missing or non-numeric age or weight included —
the adjusted half-life lies in [4.5, 7.0] hours, and equals the unfloored
sum, so the `max 1 ·` floor never binds. -/
theorem calculateAdjustedHalfLife_bounds (p : PersonalInfo) (unit : String) :
    9/2 ≤ calculateAdjustedHalfLife p unit
    ∧ calculateAdjustedHalfLife p unit ≤ 7
    ∧ calculateAdjustedHalfLife p unit = adjustedHalfLifeRaw p unit := by
  have hraw : 9/2 ≤ adjustedHalfLifeRaw p unit ∧ adjustedHalfLifeRaw p unit ≤ 7 := by
    unfold adjustedHalfLifeRaw
    rcases p with ⟨age, weight, sex⟩
    dsimp only
    cases age <;> rcases hconv : convertToMetric weight unit with _ | wkg <;>
      simp only [hconv] <;> split_ifs <;> norm_num
  have hfloor : calculateAdjustedHalfLife p unit = adjustedHalfLifeRaw p unit := by
    unfold calculateAdjustedHalfLife
    exact max_eq_right (by linarith [hraw.1])
  exact ⟨by rw [hfloor]; exact hraw.1, by rw [hfloor]; exact hraw.2, hfloor⟩

/-- C5: whenever the dose is at most the allowed contribution, the solver
returns the sentinel "any time today" without computing a cutoff. -/
theorem latestSafeTime_anyTimeToday (now bedtime : ℚ) (halfLife dose threshold : ℝ)
    (_hthr : 0 < threshold) (hd : dose ≤ threshold) :
    calculateLatestSafeIntakeTime now bedtime halfLife dose threshold = .anyTimeToday := by
  unfold calculateLatestSafeIntakeTime
  rw [if_pos hd]

/-- Witness for C5 at dose 20 mg against a 30 mg budget. -/
theorem latestSafeTime_anyTimeToday_witness :
    (0 : ℝ) < 30 ∧ (20 : ℝ) ≤ 30
      ∧ calculateLatestSafeIntakeTime 9 23 5 20 30 = .anyTimeToday :=
  ⟨by norm_num, by norm_num,
   latestSafeTime_anyTimeToday 9 23 5 20 30 (by norm_num) (by norm_num)⟩

/-- The per-drink summand the aggregation claim describes: the clamped
remaining caffeine of a drink with both fields present, read off with
defaults that the validity filter makes irrelevant. -/
noncomputable def drinkContribution (bedtime : ℚ) (halfLife : ℝ) (d : Drink) : ℝ :=
  max 0 (calculateCaffeineRemaining ((d.dose.getD 0 : ℚ) : ℝ) halfLife bedtime
    (d.startT.getD 0) d.endT)

lemma totalStep_shift (bedtime : ℚ) (halfLife : ℝ) (a : ℝ) (d : Drink) :
    totalStep bedtime halfLife a d = a + totalStep bedtime halfLife 0 d := by
  unfold totalStep
  rcases d with ⟨n, dose, s, e⟩
  cases dose <;> cases s <;> simp

lemma total_foldl_shift (bedtime : ℚ) (halfLife : ℝ) :
    ∀ (l : List Drink) (a : ℝ),
      l.foldl (totalStep bedtime halfLife) a = a + l.foldl (totalStep bedtime halfLife) 0 := by
  intro l
  induction l with
  | nil => intro a; simp
  | cons d rest ih =>
      intro a
      rw [List.foldl_cons, List.foldl_cons, ih (totalStep bedtime halfLife a d),
        ih (totalStep bedtime halfLife 0 d), totalStep_shift]
      ring

/-- C4: the bedtime total is the sum, over exactly the drinks with both a
dose and a start time, of the clamped per-drink remaining caffeine; a drink
missing either field contributes nothing, and the empty list totals 0. -/
theorem calculateTotalCaffeineAtBedtime_spec (drinks : List Drink) (bedtime : ℚ)
    (halfLife : ℝ) :
    calculateTotalCaffeineAtBedtime drinks bedtime halfLife
      = ((drinks.filter (fun d => d.dose.isSome && d.startT.isSome)).map
          (drinkContribution bedtime halfLife)).sum
    ∧ calculateTotalCaffeineAtBedtime [] bedtime halfLife = 0
    ∧ (∀ (d : Drink) (rest : List Drink), d.dose = none ∨ d.startT = none →
        calculateTotalCaffeineAtBedtime (d :: rest) bedtime halfLife
          = calculateTotalCaffeineAtBedtime rest bedtime halfLife) := by
  have key : ∀ l : List Drink,
      calculateTotalCaffeineAtBedtime l bedtime halfLife
        = ((l.filter (fun d => d.dose.isSome && d.startT.isSome)).map
            (drinkContribution bedtime halfLife)).sum := by
    intro l
    induction l with
    | nil => rfl
    | cons d rest ih =>
        unfold calculateTotalCaffeineAtBedtime at ih ⊢
        rw [List.foldl_cons, total_foldl_shift, ih]
        rcases d with ⟨n, dose, s, e⟩
        cases dose <;> cases s <;>
          simp [totalStep, drinkContribution, List.filter_cons]
  refine ⟨key drinks, rfl, fun d rest hd => ?_⟩
  rw [key (d :: rest), key rest]
  rcases d with ⟨n, dose, s, e⟩
  rcases hd with h | h <;> simp at h <;> subst h <;>
    simp [List.filter_cons]

/-- Witness for C4: a drink missing its start time contributes nothing, so
a list holding only it totals 0. -/
theorem calculateTotalCaffeineAtBedtime_spec_witness :
    calculateTotalCaffeineAtBedtime [⟨"espresso", some 100, none, none⟩] 23 5 = 0 :=
  ((calculateTotalCaffeineAtBedtime_spec [] 23 5).2.2 ⟨"espresso", some 100, none, none⟩ []
      (Or.inr rfl)).trans
    (calculateTotalCaffeineAtBedtime_spec [] 23 5).2.1

lemma remaining_instant_form (D H : ℝ) (startT : ℚ) (endT : Option ℚ)
    (hinst : isInstant startT (resolveEnd startT endT) = true) (bedtime : ℚ) :
    calculateCaffeineRemaining D H bedtime startT endT
      = if elapsed bedtime startT < 0 then 0
        else max 0 (D * (1/2 : ℝ) ^ (((elapsed bedtime startT : ℚ) : ℝ) / H)) := by
  unfold calculateCaffeineRemaining
  simp only [hinst, if_true]

/-- C1: for an instantaneous intake with positive dose `D` and half-life
`H`, the remaining caffeine at bedtime is `D * 0.5 ^ (t / H)` for elapsed
hours `t ≥ 0` and exactly 0 for `t < 0`; at `t = 0` it equals `D`, and it
is strictly decreasing in `t` on `t > 0`. -/
theorem instantRemaining_closedForm (D H : ℝ) (hD : 0 < D) (hH : 0 < H)
    (startT : ℚ) (endT : Option ℚ)
    (hinst : isInstant startT (resolveEnd startT endT) = true) :
    (∀ bedtime : ℚ, 0 ≤ elapsed bedtime startT →
      calculateCaffeineRemaining D H bedtime startT endT
        = D * (1/2 : ℝ) ^ (((elapsed bedtime startT : ℚ) : ℝ) / H))
    ∧ (∀ bedtime : ℚ, elapsed bedtime startT < 0 →
      calculateCaffeineRemaining D H bedtime startT endT = 0)
    ∧ (∀ bedtime : ℚ, elapsed bedtime startT = 0 →
      calculateCaffeineRemaining D H bedtime startT endT = D)
    ∧ (∀ b₁ b₂ : ℚ, 0 < elapsed b₁ startT → elapsed b₁ startT < elapsed b₂ startT →
      calculateCaffeineRemaining D H b₂ startT endT
        < calculateCaffeineRemaining D H b₁ startT endT) := by
  have hpos : ∀ t : ℝ, 0 < D * (1/2 : ℝ) ^ (t / H) :=
    fun t => mul_pos hD (Real.rpow_pos_of_pos (by norm_num) _)
  have hval : ∀ bedtime : ℚ, 0 ≤ elapsed bedtime startT →
      calculateCaffeineRemaining D H bedtime startT endT
        = D * (1/2 : ℝ) ^ (((elapsed bedtime startT : ℚ) : ℝ) / H) := by
    intro bedtime ht
    rw [remaining_instant_form D H startT endT hinst, if_neg (not_lt.mpr ht),
      max_eq_right (hpos _).le]
  refine ⟨hval, fun bedtime ht => ?_, fun bedtime ht => ?_, fun b₁ b₂ h₁ h₁₂ => ?_⟩
  · rw [remaining_instant_form D H startT endT hinst, if_pos ht]
  · rw [hval bedtime (le_of_eq ht.symm), ht]
    norm_num
  · have h₂ : (0 : ℚ) ≤ elapsed b₂ startT := le_of_lt (h₁.trans h₁₂)
    rw [hval b₁ h₁.le, hval b₂ h₂]
    refine mul_lt_mul_of_pos_left ?_ hD
    refine Real.rpow_lt_rpow_of_exponent_gt (by norm_num) (by norm_num) ?_
    exact div_lt_div_of_pos_right (by exact_mod_cast h₁₂) hH

/-- Witness for C1: 200 mg taken instantly at 08:00 with a 5 h half-life
leaves `200 * 0.5 ^ 3 = 25` mg at a 23:00 bedtime. -/
theorem instantRemaining_closedForm_witness :
    calculateCaffeineRemaining 200 5 23 8 none = 25 := by
  have h := (instantRemaining_closedForm 200 5 (by norm_num) (by norm_num) 8 none
    (by simp [isInstant, minutesToAbsorb, resolveEnd])).1 23
    (by norm_num [elapsed, resolveBed])
  rw [h]
  have he : ((elapsed 23 8 : ℚ) : ℝ) / 5 = ((3 : ℕ) : ℝ) := by
    norm_num [elapsed, resolveBed]
  rw [he, Real.rpow_natCast]
  norm_num

lemma holdAt_eq_getLastD (target : ℚ) :
    ∀ (l : List (ℚ × ℝ)) (acc : ℝ), l.Pairwise (fun p q => p.1 < q.1) →
      holdAt l target acc
        = ((l.filter (fun p => decide (p.1 ≤ target))).getLastD ((0 : ℚ), acc)).2 := by
  intro l
  induction l with
  | nil => intro acc _; rfl
  | cons p rest ih =>
      intro acc hpw
      rw [List.pairwise_cons] at hpw
      by_cases hp : p.1 ≤ target
      · simp only [holdAt, if_pos hp, List.filter_cons, decide_eq_true hp, if_true,
          List.getLastD_cons]
        rw [ih p.2 hpw.2, List.getLastD_eq_getLast?, List.getLastD_eq_getLast?]
        cases (rest.filter (fun q => decide (q.1 ≤ target))).getLast? <;> simp
      · have hnil : rest.filter (fun q => decide (q.1 ≤ target)) = [] :=
          List.filter_eq_nil_iff.mpr (fun q hq => by
            simp only [decide_eq_true_eq]
            exact fun hle => hp ((hpw.1 q hq).trans_le hle).le)
        simp only [holdAt, if_neg hp, List.filter_cons, decide_eq_false hp, if_false, hnil]
        rfl

lemma curve_pairwise (dose halfLife : ℝ) (durationH : ℚ) (totalHours : ℕ) :
    (calculateCaffeineCurve dose halfLife durationH totalHours).Pairwise
      (fun p q => p.1 < q.1) := by
  unfold calculateCaffeineCurve
  rw [List.pairwise_map]
  refine List.Pairwise.imp ?_ (List.pairwise_lt_range _)
  intro i j hij
  have h : (i : ℚ) < j := by exact_mod_cast hij
  dsimp only
  linarith

lemma curve_mem_nonneg (dose halfLife : ℝ) (durationH : ℚ) (totalHours : ℕ) :
    ∀ p ∈ calculateCaffeineCurve dose halfLife durationH totalHours, 0 ≤ p.2 := by
  intro p hp
  unfold calculateCaffeineCurve at hp
  rcases List.mem_map.mp hp with ⟨i, _, rfl⟩
  exact le_max_left 0 _

lemma remaining_gradual_form (dose halfLife : ℝ) (bedtime startT : ℚ) (endT : Option ℚ)
    (hgrad : isInstant startT (resolveEnd startT endT) = false)
    (hneg : ¬ elapsed bedtime startT < 0) :
    calculateCaffeineRemaining dose halfLife bedtime startT endT
      = max 0 (holdAt (calculateCaffeineCurve dose halfLife
          (curveDuration startT (resolveEnd startT endT)) 48) (elapsed bedtime startT) 0) := by
  unfold calculateCaffeineRemaining
  simp only [hgrad, Bool.false_eq_true, if_false, if_neg hneg]

/-- C8: at a target at or after a gradual intake's start, the returned
concentration is exactly that of the last generated curve sample whose
timestamp is at or before the target (step-function hold): the samples at
or before the target form a nonempty list and the result is the
concentration of its last element. -/
theorem gradualQuery_stepHold (dose halfLife : ℝ) (bedtime startT : ℚ) (endT : Option ℚ)
    (hgrad : isInstant startT (resolveEnd startT endT) = false)
    (ht : 0 ≤ elapsed bedtime startT) :
    (calculateCaffeineCurve dose halfLife (curveDuration startT (resolveEnd startT endT))
        48).filter (fun p => decide (p.1 ≤ elapsed bedtime startT)) ≠ []
    ∧ calculateCaffeineRemaining dose halfLife bedtime startT endT
        = (((calculateCaffeineCurve dose halfLife
              (curveDuration startT (resolveEnd startT endT)) 48).filter
            (fun p => decide (p.1 ≤ elapsed bedtime startT))).getLastD ((0 : ℚ), 0)).2 := by
  have h0mem : ((((0 : ℕ) : ℚ)/6),
      max 0 (curveSampleValue dose halfLife (curveDuration startT (resolveEnd startT endT)) 0))
      ∈ calculateCaffeineCurve dose halfLife (curveDuration startT (resolveEnd startT endT))
          48 := by
    unfold calculateCaffeineCurve
    exact List.mem_map.mpr ⟨0, List.mem_range.mpr (by norm_num), rfl⟩
  have h0filt : ((((0 : ℕ) : ℚ)/6),
      max 0 (curveSampleValue dose halfLife (curveDuration startT (resolveEnd startT endT)) 0))
      ∈ (calculateCaffeineCurve dose halfLife (curveDuration startT (resolveEnd startT endT))
          48).filter (fun p => decide (p.1 ≤ elapsed bedtime startT)) := by
    refine List.mem_filter.mpr ⟨h0mem, ?_⟩
    simpa using ht
  have hne := List.ne_nil_of_mem h0filt
  refine ⟨hne, ?_⟩
  rw [remaining_gradual_form dose halfLife bedtime startT endT hgrad (not_lt.mpr ht),
    holdAt_eq_getLastD _ _ _ (curve_pairwise dose halfLife _ 48),
    List.getLastD_eq_getLast?]
  rcases Option.isSome_iff_exists.mp (List.getLast?_isSome.mpr hne) with ⟨q, hq⟩
  rw [hq]
  have hq2 : 0 ≤ q.2 :=
    curve_mem_nonneg dose halfLife _ 48 q
      (List.mem_of_mem_filter (List.mem_of_mem_getLast? hq))
  simpa using max_eq_right hq2

/-- Witness for C8: a 120 mg intake sipped from 08:00 to 10:00 queried at a
23:00 bedtime. -/
theorem gradualQuery_stepHold_witness :
    calculateCaffeineRemaining 120 5 23 8 (some 10)
      = (((calculateCaffeineCurve 120 5 (curveDuration 8 (resolveEnd 8 (some 10))) 48).filter
          (fun p => decide (p.1 ≤ elapsed 23 8))).getLastD ((0 : ℚ), 0)).2 :=
  (gradualQuery_stepHold 120 5 23 8 (some 10)
    (by simp [isInstant, minutesToAbsorb, resolveEnd]; norm_num)
    (by norm_num [elapsed, resolveBed])).2

/-- C3: gradual intakes use the concurrently-decaying variant uniformly:
the curve is sampled at a fixed 10-minute step, each step's level is the
previous level times `0.5 ^ (stepHours / halfLife)` plus
`(dose / durationHours) * stepHours` while still inside the absorption
window (and no intake term after it), and the gradual branch of
`calculateCaffeineRemaining` answers queries from exactly this curve. -/
theorem gradualCurve_decayingVariant (dose halfLife : ℝ) (durationH : ℚ) (totalHours : ℕ)
    (hgrad : curveIsInstant durationH = false) :
    (∀ i : ℕ, i ≤ 6 * totalHours →
      (calculateCaffeineCurve dose halfLife durationH totalHours)[i]?
        = some (((i : ℚ)/6), max 0 (curveLevel dose halfLife durationH i)))
    ∧ (∀ i : ℕ, curveLevel dose halfLife durationH (i + 1)
        = curveLevel dose halfLife durationH i * (1/2 : ℝ) ^ (((1 : ℝ)/6) / halfLife)
          + (if (((i : ℚ) + 1)/6) < durationH
              then (dose / (durationH : ℝ)) * ((1 : ℝ)/6) else 0))
    ∧ (∀ (bedtime startT : ℚ) (endT : Option ℚ),
        isInstant startT (resolveEnd startT endT) = false →
        ¬ elapsed bedtime startT < 0 →
        calculateCaffeineRemaining dose halfLife bedtime startT endT
          = max 0 (holdAt (calculateCaffeineCurve dose halfLife
              (curveDuration startT (resolveEnd startT endT)) 48)
              (elapsed bedtime startT) 0)) := by
  refine ⟨fun i hi => ?_, fun i => ?_,
    fun bedtime startT endT hgi hneg =>
      remaining_gradual_form dose halfLife bedtime startT endT hgi hneg⟩
  · unfold calculateCaffeineCurve
    rw [List.getElem?_map, List.getElem?_range (by omega)]
    simp [curveSampleValue, hgrad]
  · rw [curveLevel]
    unfold gradualStep
    simp only [Nat.cast_add, Nat.cast_one]

/-- Witness for C3: a 120 mg intake over a 2-hour window with a 5 h
half-life, with the query instantiated at start 08:00, end 10:00, bedtime
23:00. -/
theorem gradualCurve_decayingVariant_witness :
    (calculateCaffeineCurve 120 5 2 48)[0]?
      = some ((((0 : ℕ) : ℚ)/6), max 0 (curveLevel 120 5 2 0))
    ∧ curveLevel 120 5 2 (0 + 1)
        = curveLevel 120 5 2 0 * (1/2 : ℝ) ^ (((1 : ℝ)/6) / 5)
          + (if ((((0 : ℕ) : ℚ) + 1)/6) < 2 then ((120 : ℝ) / ((2 : ℚ) : ℝ)) * ((1 : ℝ)/6) else 0)
    ∧ calculateCaffeineRemaining 120 5 23 8 (some 10)
        = max 0 (holdAt (calculateCaffeineCurve 120 5 (curveDuration 8 (resolveEnd 8 (some 10))) 48)
            (elapsed 23 8) 0) := by
  have h := gradualCurve_decayingVariant 120 5 2 48
    (by simp [curveIsInstant]; norm_num)
  exact ⟨h.1 0 (by norm_num), h.2.1 0,
    h.2.2 23 8 (some 10)
      (by simp [isInstant, minutesToAbsorb, resolveEnd]; norm_num)
      (by norm_num [elapsed, resolveBed])⟩

/-- C6: for the valid drink at index `i`, the budget left by the other
drinks is `30 - totalOfOthers`; when that headroom is not positive the row
reports the sentinel "already over limit" and the solver is not consulted,
and when it is positive the solver is called with exactly `max 0 ·` of it,
i.e. the positive headroom itself. -/
theorem individualCutoffs_budget (drinks : List Drink) (now bedtime : ℚ) (halfLife : ℝ)
    (i : ℕ) (hi : i < (validDrinksOf drinks).length) :
    ((30 : ℝ) - calculateTotalCaffeineAtBedtime ((validDrinksOf drinks).eraseIdx i)
          bedtime halfLife ≤ 0 →
      (calculateIndividualCutoffTimes drinks now bedtime halfLife)[i]?
        = some ⟨((validDrinksOf drinks).getD i ⟨"", none, none, none⟩).name,
            ((validDrinksOf drinks).getD i ⟨"", none, none, none⟩).dose,
            .alreadyOverLimit⟩)
    ∧ (0 < (30 : ℝ) - calculateTotalCaffeineAtBedtime ((validDrinksOf drinks).eraseIdx i)
          bedtime halfLife →
      (calculateIndividualCutoffTimes drinks now bedtime halfLife)[i]?
        = some ⟨((validDrinksOf drinks).getD i ⟨"", none, none, none⟩).name,
            ((validDrinksOf drinks).getD i ⟨"", none, none, none⟩).dose,
            .safeTime (calculateLatestSafeIntakeTime now bedtime halfLife
              ((((validDrinksOf drinks).getD i ⟨"", none, none, none⟩).dose.getD 0 : ℚ) : ℝ)
              ((30 : ℝ) - calculateTotalCaffeineAtBedtime ((validDrinksOf drinks).eraseIdx i)
                bedtime halfLife))⟩) := by
  have hidx : (calculateIndividualCutoffTimes drinks now bedtime halfLife)[i]?
      = some (cutoffEntryFor (validDrinksOf drinks) now bedtime halfLife i) := by
    unfold calculateIndividualCutoffTimes
    rw [List.getElem?_map, List.getElem?_range hi, Option.map_some']
  constructor
  · intro h
    rw [hidx]
    simp only [cutoffEntryFor]
    rw [max_eq_left h, if_neg (lt_irrefl 0)]
  · intro h
    rw [hidx]
    simp only [cutoffEntryFor]
    rw [max_eq_right h.le, if_pos h]

lemma remaining_240_example : calculateCaffeineRemaining (240 : ℝ) 5 23 8 none = 30 := by
  have hinst : isInstant 8 (resolveEnd 8 none) = true := by
    simp [isInstant, minutesToAbsorb, resolveEnd]
  rw [remaining_instant_form _ 5 8 none hinst, if_neg (by norm_num [elapsed, resolveBed])]
  have he : ((elapsed 23 8 : ℚ) : ℝ) / 5 = ((3 : ℕ) : ℝ) := by
    norm_num [elapsed, resolveBed]
  rw [he, Real.rpow_natCast]
  norm_num

lemma total_single_240 :
    calculateTotalCaffeineAtBedtime [⟨"brew", some 240, some 8, none⟩] 23 5 = 30 := by
  unfold calculateTotalCaffeineAtBedtime
  norm_num [totalStep, remaining_240_example]

/-- Witness for C6: a second 100 mg drink whose budget is fully consumed by
a 240 mg drink still holding 30 mg at bedtime is reported already over the
limit. -/
theorem individualCutoffs_budget_witness :
    (calculateIndividualCutoffTimes
        [⟨"brew", some 240, some 8, none⟩, ⟨"soda", some 100, some 20, none⟩] 9 23 5)[1]?
      = some ⟨"soda", some 100, .alreadyOverLimit⟩ := by
  have hi : 1 < (validDrinksOf
      [⟨"brew", some 240, some 8, none⟩, ⟨"soda", some 100, some 20, none⟩]).length := by
    norm_num [validDrinksOf]
  have h := (individualCutoffs_budget
    [⟨"brew", some 240, some 8, none⟩, ⟨"soda", some 100, some 20, none⟩] 9 23 5 1 hi).1
  have hx : (30 : ℝ) - calculateTotalCaffeineAtBedtime
      ((validDrinksOf
        [⟨"brew", some 240, some 8, none⟩, ⟨"soda", some 100, some 20, none⟩]).eraseIdx 1)
      23 5 ≤ 0 := by
    have he : (validDrinksOf
        [⟨"brew", some 240, some 8, none⟩, ⟨"soda", some 100, some 20, none⟩]).eraseIdx 1
        = [⟨"brew", some 240, some 8, none⟩] := rfl
    rw [he, total_single_240]
    norm_num
  simpa [validDrinksOf] using h hx

lemma safeCutoff_60_30 : safeCutoff 23 5 60 30 = 18 := by
  unfold safeCutoff
  rw [show ((60 : ℝ)/30) = 2 by norm_num, Real.logb_self_eq_one (by norm_num)]
  norm_num [resolveBed]

/-- Counterexample to C7: a 60 mg dose against a 30 mg budget for a 23:00
bedtime with a 5 h half-life has its cutoff at 18:00, so evaluating the
solver at 17:00 and at 19:00 wall-clock time gives different results: the
output depends on the ambient clock. -/
theorem latestSafeTime_clock_dependent :
    calculateLatestSafeIntakeTime 17 23 5 60 30 ≠ calculateLatestSafeIntakeTime 19 23 5 60 30 := by
  have h17 : calculateLatestSafeIntakeTime 17 23 5 60 30 = .timeOfDay 6 0 true := by
    simp only [calculateLatestSafeIntakeTime, safeCutoff_60_30]
    rw [if_neg (by norm_num), if_neg (by norm_num), if_neg (by norm_num [resolveBed])]
    simp only [formatTimeOfDay]
    norm_num
  have h19 : calculateLatestSafeIntakeTime 19 23 5 60 30 = .tooLateForToday := by
    simp only [calculateLatestSafeIntakeTime, safeCutoff_60_30]
    rw [if_neg (by norm_num), if_pos (by norm_num)]
  rw [h17, h19]
  simp

/-- C7 (amended): the solver depends on the ambient clock only through the
comparison of the cutoff with "now": two evaluations whose "now" values fall
on the same side of the cutoff return identical results. -/
theorem latestSafeTime_now_dependence (now1 now2 bedtime : ℚ)
    (halfLife dose threshold : ℝ)
    (h : safeCutoff bedtime halfLife dose threshold < ((now1 : ℚ) : ℝ)
      ↔ safeCutoff bedtime halfLife dose threshold < ((now2 : ℚ) : ℝ)) :
    calculateLatestSafeIntakeTime now1 bedtime halfLife dose threshold
      = calculateLatestSafeIntakeTime now2 bedtime halfLife dose threshold := by
  unfold calculateLatestSafeIntakeTime
  by_cases hd : dose ≤ threshold
  · rw [if_pos hd, if_pos hd]
  · rw [if_neg hd, if_neg hd]
    by_cases hc : safeCutoff bedtime halfLife dose threshold < ((now1 : ℚ) : ℝ)
    · rw [if_pos hc, if_pos (h.mp hc)]
    · rw [if_neg hc, if_neg (fun hh => hc (h.mpr hh))]

/-- Witness for the amended C7: with the cutoff at 18:00, evaluating at
10:00 and at 17:00 gives the same advisory time. -/
theorem latestSafeTime_now_dependence_witness :
    calculateLatestSafeIntakeTime 10 23 5 60 30 = calculateLatestSafeIntakeTime 17 23 5 60 30 :=
  latestSafeTime_now_dependence 10 17 23 5 60 30
    (by rw [safeCutoff_60_30]; norm_num)
